import Mathlib

/-!
Verification of the fundingwiki record-to-markup engine.

Python strings are embedded as `List Char` (`PyStr`), Airtable field values
as the inductive `Val`, records as `Rec`.  Fallible Python code (dict access
that can raise `KeyError`, indexing that can raise `IndexError`, methods on
wrongly-typed values) is embedded with `Option`: `none` means the Python code
raises.  Each definition is translated from the named source function.
-/

abbrev PyStr := List Char

/-- Airtable field value: string, list, number or boolean (JSON-like). -/
inductive Val where
  | vStr : PyStr → Val
  | vList : List Val → Val
  | vNum : Int → Val
  | vBool : Bool → Val

/-- One Airtable record: an id plus a field-name-to-value mapping
(Python dict, embedded as an association list with distinct keys). -/
structure Rec where
  id : PyStr
  fields : List (PyStr × Val)

/-- Python dict membership: key in record fields. -/
def hasField (r : Rec) (k : PyStr) : Bool :=
  r.fields.any (fun kv => decide (kv.1 = k))

/-- Python `d[k]` on a dict: `some` value, or `none` for `KeyError`. -/
def dictGet? (fields : List (PyStr × Val)) (k : PyStr) : Option Val :=
  match fields with
  | [] => none
  | kv :: rest => if kv.1 = k then some kv.2 else dictGet? rest k

/-- Python `d.get(k, default)`. -/
def dictGetD (fields : List (PyStr × Val)) (k : PyStr) (d : Val) : Val :=
  (dictGet? fields k).getD d

/-- Python `d[k] = v` on a string-valued dict: update in place if the key
exists (insertion order preserved), else append. -/
def dictInsert (d : List (PyStr × PyStr)) (k v : PyStr) : List (PyStr × PyStr) :=
  match d with
  | [] => [(k, v)]
  | kv :: rest => if kv.1 = k then (k, v) :: rest else kv :: dictInsert rest k v

/-- Extract a Python `str` value; `none` when the value has another type
(where the Python code would raise on a string method). -/
def asStr : Val → Option PyStr
  | .vStr s => some s
  | _ => none

/-- Python iteration over a value: lists yield their items, strings yield
their characters (as one-character strings); other types raise `TypeError`. -/
def valIter : Val → Option (List Val)
  | .vList l => some l
  | .vStr s => some (s.map (fun c => Val.vStr [c]))
  | _ => none

/-- Python `len(value)` for lists and strings; other types raise. -/
def valLen : Val → Option Nat
  | .vList l => some l.length
  | .vStr s => some s.length
  | _ => none

/-- `string.punctuation` from the Python standard library. -/
def pyPunctuation : PyStr :=
  "!\"#$%&\x27()*+,-./:;<=>?@[\\]^_\x60\x7b|\x7d~".data

/-- `s.translate(punctuation_translator)`: delete every punctuation char
(wikicontents.py line 15). -/
def pyTranslate (s : PyStr) : PyStr :=
  s.filter (fun c => ¬ pyPunctuation.contains c)

/-- Python whitespace characters stripped by `str.rstrip()`. -/
def pyIsSpace (c : Char) : Bool :=
  c = ' ' ∨ c = '\t' ∨ c = '\n' ∨ c = '\r' ∨ c = '\x0b' ∨ c = '\x0c'

/-- Python `s.rstrip()`. -/
def pyRstrip (s : PyStr) : PyStr :=
  (s.reverse.dropWhile pyIsSpace).reverse

/-- Python `s.replace(old, new)` for a one-character `old` (the only form
the source uses), replacing every occurrence. -/
def pyReplaceChar (old : Char) (new : PyStr) (s : PyStr) : PyStr :=
  s.flatMap (fun c => if c = old then new else [c])

/-- Index of the first occurrence of `pat` in `s` (`none` when absent):
the scan underlying Python `str.find` and `str.replace`. -/
def firstOccur (pat : PyStr) : PyStr → Option Nat
  | [] => if pat.isPrefixOf ([] : PyStr) then some 0 else none
  | c :: t =>
    if pat.isPrefixOf (c :: t) then some 0
    else (firstOccur pat t).map (· + 1)

/-- Python `s.find(pat)`: first index, or `-1` when absent. -/
def pyFind (s pat : PyStr) : Int :=
  match firstOccur pat s with
  | some n => (n : Int)
  | none => -1

/-- Python `s.replace(old, new, 1)`: replace the first occurrence only. -/
def pyReplaceFirst (old new : PyStr) : PyStr → PyStr
  | [] => if old.isPrefixOf ([] : PyStr) then new else []
  | c :: t =>
    if old.isPrefixOf (c :: t) then new ++ (c :: t).drop old.length
    else c :: pyReplaceFirst old new t

/-- Python slice `s[:i]` (an `int` index, possibly negative). -/
def pySliceTo (s : PyStr) (i : Int) : PyStr :=
  if 0 ≤ i then s.take i.toNat else s.take (s.length - (-i).toNat)

/-- Python slice `s[i:]` (an `int` index, possibly negative). -/
def pySliceFrom (s : PyStr) (i : Int) : PyStr :=
  if 0 ≤ i then s.drop i.toNat else s.drop (s.length - (-i).toNat)

/-- Python str.join: items joined with the separator between them. -/
def pyJoin (sep : PyStr) (items : List PyStr) : PyStr :=
  List.intercalate sep items

/-! ## wikicontents.py: field formatters and cross-reference resolution -/

/-- `insert_check(value, record)` (wikicontents.py lines 19-23): the checked
glyph when the named field is present, else the empty string. -/
def insert_check (value : PyStr) (r : Rec) : PyStr :=
  if ¬ hasField r value then [] else ['✓']

/-- An Airtable connection, abstracted as `airtable.get`: record id to
record (the oracle a run observes). -/
abbrev Airtable := PyStr → Rec

/-- One step of the look-up comprehension in `get_linked_items`
(wikicontents.py line 44): the linked record is fetched and its display
column extracted, for one linked id. -/
def resolveItem (airtable : Airtable) (linked_column_name : PyStr) (idv : Val) :
    Option PyStr :=
  match asStr idv with
  | none => none
  | some item_id =>
    match dictGet? (airtable item_id).fields linked_column_name with
    | none => none
    | some nv => asStr nv

/-- `get_linked_items(airtable, column_name, record, linked_column_name)`
(wikicontents.py lines 26-48).  `none` embeds a raised exception (a linked
id that is not a string, or a linked record missing the display column). -/
def get_linked_items (airtable : Airtable) (column_name : PyStr) (r : Rec)
    (linked_column_name : PyStr) : Option PyStr :=
  if hasField r column_name then
    match dictGet? r.fields column_name with
    | none => none
    | some v =>
      match valIter v with
      | none => none
      | some item_ids =>
        match item_ids.mapM (resolveItem airtable linked_column_name) with
        | none => none
        | some item_names => some (pyJoin ", ".data item_names)
  else some []

/-! ## wikicontents.py: the base `Table` renderers

`format_table` (lines 169-186) and `format_pages` (lines 208-234) are
methods of the base `Table` class whose `construct_row` / `create_page` are
overridden by subclasses; they are embedded with the dispatched method as a
function argument and the per-table configuration fields
(`main_column`, `dw_page_name_column`, `root_namespace`, `header`) as
parameters.  A `None` attribute is `Option.none`. -/

/-- The record-accumulating loop of `Table.format_table`: skip a record when
`main_column is not None and main_column not in record.fields`, else
append its row.  `none` embeds an exception raised by `construct_row`. -/
def format_table_aux (main_column : Option PyStr) (construct_row : Rec → Option PyStr) :
    PyStr → List Rec → Option PyStr
  | acc, [] => some acc
  | acc, r :: rest =>
    if (match main_column with
        | some mc => !(hasField r mc)
        | none => false) then
      format_table_aux main_column construct_row acc rest
    else
      match construct_row r with
      | none => none
      | some row => format_table_aux main_column construct_row (acc ++ row) rest

/-- `Table.format_table` (wikicontents.py lines 169-186): header followed by
one constructed row per record whose main column is present. -/
def format_table (main_column : Option PyStr) (header : PyStr)
    (construct_row : Rec → Option PyStr) (records : List Rec) : Option PyStr :=
  format_table_aux main_column construct_row header records

/-- Python `self.main_column not in record.fields` where the attribute
may be `None` (`None` is never a dict key, so the test is then true). -/
def hasFieldOpt (r : Rec) : Option PyStr → Bool
  | some c => hasField r c
  | none => false

/-- The record loop of `Table.format_pages` (else-branch, lines 224-233):
skip a record missing the main column or the page-name column, else insert
`root_namespace + cleaned page name ↦ created page` into the dict. -/
def format_pages_aux (main_column dw_page_name_column : Option PyStr)
    (root_namespace : PyStr) (create_page : Rec → Option PyStr) :
    List (PyStr × PyStr) → List Rec → Option (List (PyStr × PyStr))
  | acc, [] => some acc
  | acc, r :: rest =>
    if !hasFieldOpt r main_column || !hasFieldOpt r dw_page_name_column then
      format_pages_aux main_column dw_page_name_column root_namespace create_page acc rest
    else
      match dw_page_name_column with
      | none => none
      | some ncol =>
        match dictGet? r.fields ncol with
        | none => none
        | some v =>
          match asStr v with
          | none => none
          | some page_name =>
            let clean_page_name := pyTranslate page_name
            let full_page_name := root_namespace ++ clean_page_name
            match create_page r with
            | none => none
            | some page =>
              format_pages_aux main_column dw_page_name_column root_namespace create_page
                (dictInsert acc full_page_name page) rest

/-- `Table.format_pages` (wikicontents.py lines 208-234): a dict of pages
keyed by wiki link name.  When both `main_column` and `dw_page_name_column`
are `None`, a single test page is made from `records[0]` (an exception,
`none`, when the record list is empty). -/
def format_pages (main_column dw_page_name_column : Option PyStr)
    (root_namespace : PyStr) (create_page : Rec → Option PyStr)
    (records : List Rec) : Option (List (PyStr × PyStr)) :=
  if main_column = none ∧ dw_page_name_column = none then
    match records with
    | [] => none
    | r :: _ =>
      match create_page r with
      | none => none
      | some page => some [("test:test_page".data, page)]
  else
    format_pages_aux main_column dw_page_name_column root_namespace create_page [] records

/-! ## wikicontents.py: `ToolTable` -/

/-- `ToolTable.main_column` (wikicontents.py line 256). -/
def toolMainColumn : PyStr := "Tool name".data

/-- `ToolTable.header` (wikicontents.py line 258). -/
def toolHeader : PyStr :=
  "\n^ Tool name ^ Category ^ Description ^ Main findings ^ Key papers ^\n".data

/-- Python equality test against the empty string literal: true only for
the empty string (never raises). -/
def valIsEmptyStr : Val → Bool
  | .vStr [] => true
  | _ => false

/-- The category pop-over format string of `ToolTable.construct_row`
(wikicontents.py line 312). -/
def toolPopover (description name : PyStr) : PyStr :=
  "<popover content=\"".data ++ description ++ "\" trigger=\x27hover\x27>".data
    ++ name ++ "</popover>".data

/-- The category pop-over column of `ToolTable.construct_row`
(wikicontents.py lines 306-315): when `len(categories) > 0`, look up each
linked category record and build one pop-over per (description, name) pair
(the comprehension iterates descriptions outer, names inner); otherwise the
empty column.  Linked display fields are text columns, embedded as
strings. -/
def toolCatColumn (airtable : Airtable) (categories : Val) : Option (List PyStr) := do
  let catLen ← valLen categories
  if catLen > 0 then do
    let cat_ids ← (valIter categories).bind (List.mapM asStr)
    let category_names ← cat_ids.mapM (fun cat_id =>
      (dictGet? (airtable cat_id).fields "(Sub)Category or theme".data).bind asStr)
    let category_descriptions ← cat_ids.mapM (fun cat_id =>
      ((dictGet? (airtable cat_id).fields "Description".data).bind asStr).map pyRstrip)
    pure (category_descriptions.flatMap (fun d =>
      category_names.map (fun n => toolPopover d n)))
  else pure []

/-- The key-paper links of `ToolTable.construct_row` (wikicontents.py lines
322-340): when `len(paper_ids) > 0` (the default empty string has length
0), look up
each linked paper; a paper with empty `parencite` or empty `Title` is
skipped, the others yield one wiki link each. -/
def toolKeyPapers (airtable : Airtable) (r : Rec) : Option (List PyStr) := do
  let paper_ids := dictGetD r.fields "key_papers".data (Val.vStr [])
  let pLen ← valLen paper_ids
  if pLen > 0 then do
    let pidVals ← (dictGet? r.fields "key_papers".data).bind valIter
    let pids ← pidVals.mapM asStr
    let entries ← pids.mapM (fun paper_id => do
      let paper_nameV := dictGetD (airtable paper_id).fields "parencite".data (Val.vStr [])
      let titleV := dictGetD (airtable paper_id).fields "Title".data (Val.vStr [])
      if valIsEmptyStr paper_nameV || valIsEmptyStr titleV then
        pure ([] : List PyStr)
      else do
        let title ← asStr titleV
        let paper_name ← asStr paper_nameV
        let paper_page_name := pyTranslate title
        pure ["[[papers:".data ++ paper_page_name ++ "|".data ++ paper_name ++ "]]".data])
    pure entries.flatten
  else pure []

/-- `ToolTable.construct_row` (wikicontents.py lines 284-348).  `airtable`
is the connection used for the `airtable.get(...)` look-ups of linked
category and paper records.  A record without the Wiki? field yields
the empty string.  `none` embeds a raised exception. -/
def toolConstructRow (airtable : Airtable) (r : Rec) : Option PyStr :=
  if hasField r "Wiki?".data then do
    let tool_name ← (dictGet? r.fields "Tool name".data).bind asStr
    let tool_page_name := pyTranslate tool_name
    let tool_dw_table_page :=
      "[[tools:".data ++ tool_page_name ++ "|".data ++ tool_name ++ "]]".data
    let categories := dictGetD r.fields "Category".data (Val.vList [Val.vStr []])
    let description0 ← asStr (dictGetD r.fields "Description".data (Val.vStr []))
    let description := pyReplaceChar '\r' [] (pyReplaceChar '\n' [' '] description0)
    let findings0 ← asStr (dictGetD r.fields "Findings summarized".data (Val.vStr []))
    let findings := pyReplaceChar '\r' [] (pyReplaceChar '\n' [' '] findings0)
    let cat_column ← toolCatColumn airtable categories
    let key_papers ← toolKeyPapers airtable r
    pure ("| ".data ++ tool_dw_table_page ++ " | ".data ++ pyJoin ", ".data cat_column
      ++ " | ".data ++ pyRstrip description ++ " |".data ++ pyRstrip findings
      ++ " | ".data ++ pyJoin "; ".data key_papers ++ " |\n".data)
  else pure []

/-! ## wikicontents.py: `ToolTable.create_page` template substitution

`ToolTable.create_page` ends (wikicontents.py lines 426-438) by folding
`str.replace(placeholder, value, 1)` left-to-right over an ordered list of
(placeholder, value) pairs, starting from `dw_page_template`. -/

/-- The `reduce(lambda a, kv: a.replace(*kv, 1), replacements, template)`
call (wikicontents.py line 437). -/
def applyReplacements (replacements : List (PyStr × PyStr)) (template : PyStr) : PyStr :=
  replacements.foldl (fun a kv => pyReplaceFirst kv.1 kv.2 a) template

/-- `ToolTable.dw_page_template` (wikicontents.py lines 262-278). -/
def toolPageTemplate : PyStr :=
  ("===== TOOLNAME =====\n\n"
    ++ "//DESCRIPTION//\n\\\\\n\\\\\n"
    ++ "**Alternative tool name:** AKA\n\n"
    ++ "**Tool variation**: TOOLVAR\n\n"
    ++ "**Category**: CATEGORY \n\n"
    ++ "**Sub-category**: SUBCATEGORY\n\n"
    ++ "**Relevant theories**: THEORIES\n\n"
    ++ "**Type of evidence**: EVIDENCE\n\n"
    ++ "**Evidence strength** (ad hoc assessment): STRENGTH\n\\\\\n\\\\\n"
    ++ "==== Main findings ====\n\nFINDINGS\n\\\\\n\\\\\n"
    ++ "==== Discussion ====\n\nDISCUSSION\n\\\\\n\\\\\n"
    ++ "==== Practical relevance ====\n\nRELEVANCE\n\\\\\n\\\\\n"
    ++ "=== Use cases ===\n\nCASES\n\\\\\n\\\\\n"
    ++ "**Prevalence:**\n\nPREVALENCE\n\\\\\n\\\\\n"
    ++ "==== Key papers ====PAPERS\n\n"
    ++ "==== Secondary papers ====PAPERS2\n\n"
    ++ "**Contributors** CONTRIBUTOR").data

/-- The ordered replacement pairs of `ToolTable.create_page`
(wikicontents.py lines 428-434), with the rendered field values as
arguments. -/
def toolReplacements (tn descr aka toolvar cat subcat theor evid strength
    findings discuss relevance ucases preval papers papers2 contrib : PyStr) :
    List (PyStr × PyStr) :=
  [("TOOLNAME".data, tn), ("DESCRIPTION".data, descr), ("AKA".data, aka),
   ("TOOLVAR".data, toolvar), ("CATEGORY".data, cat), ("SUBCATEGORY".data, subcat),
   ("THEORIES".data, theor), ("EVIDENCE".data, evid), ("STRENGTH".data, strength),
   ("FINDINGS".data, findings), ("DISCUSSION".data, discuss),
   ("RELEVANCE".data, relevance), ("CASES".data, ucases), ("PREVALENCE".data, preval),
   ("PAPERS".data, papers), ("PAPERS2".data, papers2), ("CONTRIBUTOR".data, contrib)]

/-- The substitution step of `ToolTable.create_page` (wikicontents.py lines
426-438): apply the ordered replacements to the tool page template. -/
def toolCreatePageSubst (tn descr aka toolvar cat subcat theor evid strength
    findings discuss relevance ucases preval papers papers2 contrib : PyStr) : PyStr :=
  applyReplacements
    (toolReplacements tn descr aka toolvar cat subcat theor evid strength
      findings discuss relevance ucases preval papers papers2 contrib)
    toolPageTemplate

/-! ## wikicontents.py: `PapersTable.fill_bibliography` parencite -/

/-- A parsed bibliography person (`pybtex` person): its list of last
names. -/
structure Person where
  lastNames : List PyStr

/-- The parenthetical-citation derivation at the end of
`PapersTable.fill_bibliography` (wikicontents.py lines 799-812):
`authors` is the persons author list of the parsed entry (so authors_list
has the same length), `year` the year string.  Note that the code computes
first_author, the first last name of author 0, BEFORE testing
`len(authors_list) == 0`, so an empty author list raises `IndexError`
(`none`) and the `parencite = ""` branch is unreachable. -/
def makeParencite (authors : List Person) (year : PyStr) : Option PyStr := do
  let a0 ← authors.head?
  let first_author ← a0.lastNames.head?
  if authors.length = 0 then
    pure []
  else if authors.length = 1 then
    pure ("(".data ++ first_author ++ ", \x27".data ++ pySliceFrom year (-2) ++ ")".data)
  else if authors.length = 2 then do
    let a1 ← authors[1]?
    let second_author ← a1.lastNames.head?
    let c ← second_author.head?
    pure ("(".data ++ first_author ++ " & ".data ++ [c] ++ ", \x27".data
      ++ pySliceFrom year (-2) ++ ")".data)
  else
    pure ("(".data ++ first_author ++ " ea, \x27".data ++ pySliceFrom year (-2) ++ ")".data)

/-! ## wikimanager.py: the update runs

`WikiManager.update_table` (lines 131-140), `update_pages` (lines 142-152)
and `update_table_pages` (lines 154-166) drive a table object through its
`set_table_page` / `set_pages` methods and issue `airtable.update` calls.
The table object is embedded as `TableObj` with its render methods as
opaque functions (they are dynamically dispatched to a `Table` subclass);
the externally visible effects of a run are collected, in program order, in
a list of `Event`s. -/

/-- The table object as `WikiManager` sees it: the wiki location of the
table page, and the dispatched renderers behind `set_table_page`
(`format_table`) and `set_pages` (`format_pages`, a page-name-to-content
dict in insertion order). -/
structure TableObj where
  dw_table_page : PyStr
  formatTable : List Rec → PyStr
  formatPages : List Rec → List (PyStr × PyStr)

/-- An externally visible effect: an `airtable.update(id, field-mapping)`
call, or a `wiki.pages.set(page, content)` call. -/
inductive Event where
  | atUpdate : PyStr → PyStr → Val → Event
  | wikiSet : PyStr → PyStr → Event

/-- The dirty-flag field name Modified. -/
def modifiedField : PyStr := "Modified".data

/-- The Modified-flag presence test on a record. -/
def isDirty (r : Rec) : Bool := hasField r modifiedField

/-- The airtable.update call that resets the Modified flag to False. -/
def clearEvent (r : Rec) : Event :=
  Event.atUpdate r.id modifiedField (Val.vBool false)

/-- The scan loop shared by `update_pages` and `update_table_pages`
(wikimanager.py lines 145-149 and 157-161): collect the modified records
and issue one flag-clearing update per modified record, in record order. -/
def scanModified (records : List Rec) : List Rec × List Event :=
  records.foldl
    (fun acc r => if isDirty r then (acc.1 ++ [r], acc.2 ++ [clearEvent r]) else acc)
    ([], [])

/-- The scan loop of `update_table` (wikimanager.py lines 134-138), which
keeps only a count of modified records. -/
def countModified (records : List Rec) : Nat × List Event :=
  records.foldl
    (fun acc r => if isDirty r then (acc.1 + 1, acc.2 ++ [clearEvent r]) else acc)
    (0, [])

/-- The `wiki.pages.set` calls of `Table.set_pages` (wikicontents.py lines
236-242), one per page of the rendered page dict, in order. -/
def setPagesEvents (t : TableObj) (records : List Rec) : List Event :=
  (t.formatPages records).map (fun p => Event.wikiSet p.1 p.2)

/-- `WikiManager.update_table` (wikimanager.py lines 131-140): result is
the table's record list after the call and the effect trace. -/
def update_table (t : TableObj) (records : List Rec) : List Rec × List Event :=
  let scan := countModified records
  if scan.1 > 0 then
    (records, scan.2 ++ [Event.wikiSet t.dw_table_page (t.formatTable records)])
  else (records, scan.2)

/-- `WikiManager.update_pages` (wikimanager.py lines 142-152): when any
record is modified, `self.table.records` is overwritten with the modified
subset and pages are rendered from it. -/
def update_pages (t : TableObj) (records : List Rec) : List Rec × List Event :=
  let scan := scanModified records
  if scan.1.length > 0 then
    (scan.1, scan.2 ++ setPagesEvents t scan.1)
  else (records, scan.2)

/-- `WikiManager.update_table_pages` (wikimanager.py lines 154-166): the
table page is set from the still-full record list, then
`self.table.records` is overwritten with the modified subset and the pages
are rendered from it. -/
def update_table_pages (t : TableObj) (records : List Rec) : List Rec × List Event :=
  let scan := scanModified records
  if scan.1.length > 0 then
    (scan.1,
      scan.2 ++ [Event.wikiSet t.dw_table_page (t.formatTable records)]
        ++ setPagesEvents t scan.1)
  else (records, scan.2)

/-! ## remotewiki.py: region-scoped table embedding -/

/-- The start tag with the div id interpolated (remotewiki.py line 34). -/
def rwStartTag (div_id : PyStr) : PyStr :=
  "<div id=\"".data ++ div_id ++ "\">".data

/-- The end marker, a closing div tag (remotewiki.py line 35). -/
def rwEndTag : PyStr := "</div>".data

/-- The row loop of `remotewiki.Table.format_table` (lines 44-51): skip a
record when `self.main_column not in record.fields` (always true when
`main_column` is `None`), else append its row. -/
def rwRowsAux (main_column : Option PyStr) (construct_row : Rec → Option PyStr) :
    PyStr → List Rec → Option PyStr
  | acc, [] => some acc
  | acc, r :: rest =>
    if !hasFieldOpt r main_column then rwRowsAux main_column construct_row acc rest
    else
      match construct_row r with
      | none => none
      | some row => rwRowsAux main_column construct_row (acc ++ row) rest

/-- `remotewiki.Table.format_table(wiki_page)` (remotewiki.py lines 33-55):
find the start tag and the (first!) end tag in the existing page, build the
table content from the header and the records, and splice it between the
two, keeping `wiki_page[:start_index]` and `wiki_page[end_index:]`. -/
def rwFormatTable (div_id : PyStr) (main_column : Option PyStr) (header : PyStr)
    (construct_row : Rec → Option PyStr) (records : List Rec)
    (wiki_page : PyStr) : Option PyStr :=
  let start_tag := rwStartTag div_id
  let end_tag := rwEndTag
  let start_index := pyFind wiki_page start_tag + (start_tag.length : Int)
  let end_index := pyFind wiki_page end_tag
  match rwRowsAux main_column construct_row header records with
  | none => none
  | some table_content =>
    some (pySliceTo wiki_page start_index ++ table_content
      ++ pySliceFrom wiki_page end_index)

/-! ## Helper lemmas -/

theorem firstOccur_isPrefix (pat : PyStr) :
    ∀ (s : PyStr) (i : Nat), firstOccur pat s = some i →
      pat.isPrefixOf (s.drop i) = true := by
  intro s
  induction s with
  | nil =>
    intro i h
    simp only [firstOccur] at h
    split at h
    · rename_i hp; cases h; simpa using hp
    · cases h
  | cons c t ih =>
    intro i h
    simp only [firstOccur] at h
    split at h
    · rename_i hp; cases h; simpa using hp
    · rename_i hp
      cases hfo : firstOccur pat t with
      | none => rw [hfo] at h; cases h
      | some j =>
        rw [hfo] at h
        simp at h
        subst h
        simpa using ih j hfo

theorem firstOccur_minimal (pat : PyStr) :
    ∀ (s : PyStr) (i : Nat), firstOccur pat s = some i →
      ∀ j, j < i → pat.isPrefixOf (s.drop j) = false := by
  intro s
  induction s with
  | nil =>
    intro i h j hj
    simp only [firstOccur] at h
    split at h
    · cases h; omega
    · cases h
  | cons c t ih =>
    intro i h j hj
    simp only [firstOccur] at h
    split at h
    · cases h; omega
    · rename_i hp
      cases hfo : firstOccur pat t with
      | none => rw [hfo] at h; cases h
      | some k =>
        rw [hfo] at h
        simp at h
        subst h
        cases j with
        | zero =>
          simp only [List.drop_zero]
          exact Bool.eq_false_iff.mpr hp
        | succ j' => simpa using ih k hfo j' (by omega)

theorem pyReplaceFirst_eq_splice (old new : PyStr) :
    ∀ (s : PyStr) (i : Nat), firstOccur old s = some i →
      pyReplaceFirst old new s = s.take i ++ new ++ s.drop (i + old.length) := by
  intro s
  induction s with
  | nil =>
    intro i h
    simp only [firstOccur] at h
    split at h
    · rename_i hp; cases h
      simp only [pyReplaceFirst, if_pos hp]
      simp
    · cases h
  | cons c t ih =>
    intro i h
    simp only [firstOccur] at h
    split at h
    · rename_i hp; cases h
      simp only [pyReplaceFirst, if_pos hp]
      simp
    · rename_i hp
      cases hfo : firstOccur old t with
      | none => rw [hfo] at h; cases h
      | some k =>
        rw [hfo] at h
        simp at h
        subst h
        simp only [pyReplaceFirst, if_neg hp]
        rw [ih k hfo]
        simp [Nat.succ_add, List.take_succ_cons, List.drop_succ_cons,
          Nat.add_right_comm]

theorem pyReplaceFirst_of_none (old new : PyStr) :
    ∀ s : PyStr, firstOccur old s = none → pyReplaceFirst old new s = s := by
  intro s
  induction s with
  | nil =>
    intro h
    simp only [firstOccur] at h
    split at h
    · cases h
    · rename_i hp
      simp only [pyReplaceFirst, if_neg hp]
  | cons c t ih =>
    intro h
    simp only [firstOccur] at h
    split at h
    · cases h
    · rename_i hp
      cases hfo : firstOccur old t with
      | none =>
        simp only [pyReplaceFirst, if_neg hp]
        rw [ih hfo]
      | some k => rw [hfo] at h; cases h

theorem scanModified_go (records : List Rec) (acc : List Rec × List Event) :
    records.foldl
      (fun acc r => if isDirty r then (acc.1 ++ [r], acc.2 ++ [clearEvent r]) else acc)
      acc
    = (acc.1 ++ records.filter isDirty,
       acc.2 ++ (records.filter isDirty).map clearEvent) := by
  induction records generalizing acc with
  | nil => simp
  | cons r rest ih =>
    by_cases h : isDirty r
    · simp [h, ih, List.filter_cons]
    · simp [h, ih, List.filter_cons]

theorem scanModified_eq (records : List Rec) :
    scanModified records
      = (records.filter isDirty, (records.filter isDirty).map clearEvent) := by
  simpa [scanModified] using scanModified_go records ([], [])

theorem countModified_go (records : List Rec) (acc : Nat × List Event) :
    records.foldl
      (fun acc r => if isDirty r then (acc.1 + 1, acc.2 ++ [clearEvent r]) else acc)
      acc
    = (acc.1 + (records.filter isDirty).length,
       acc.2 ++ (records.filter isDirty).map clearEvent) := by
  induction records generalizing acc with
  | nil => simp
  | cons r rest ih =>
    by_cases h : isDirty r
    · simp [h, ih, List.filter_cons]; omega
    · simp [h, ih, List.filter_cons]

theorem countModified_eq (records : List Rec) :
    countModified records
      = ((records.filter isDirty).length, (records.filter isDirty).map clearEvent) := by
  simpa [countModified] using countModified_go records (0, [])

/-- Is an effect a wiki write? -/
def isWikiSetEvent : Event → Bool
  | .wikiSet _ _ => true
  | .atUpdate _ _ _ => false

/-- The trace shape claimed by the error-handling design: first exactly one
flag-clearing update per dirty record, in record order, then only wiki
writes. -/
def clearsThenWrites (records : List Rec) (evs : List Event) : Prop :=
  evs = (records.filter isDirty).map clearEvent
          ++ evs.drop (records.filter isDirty).length
  ∧ (evs.drop (records.filter isDirty).length).all isWikiSetEvent = true

theorem clearsThenWrites_of (records : List Rec) (ws : List Event)
    (hws : ws.all isWikiSetEvent = true) :
    clearsThenWrites records ((records.filter isDirty).map clearEvent ++ ws) := by
  have hd : (((records.filter isDirty).map clearEvent) ++ ws).drop
      (records.filter isDirty).length = ws := by
    rw [← List.length_map (records.filter isDirty) clearEvent]
    exact List.drop_left _ ws
  exact ⟨by rw [hd], by rw [hd]; exact hws⟩

theorem setPagesEvents_all_wikiSet (t : TableObj) (rs : List Rec) :
    (setPagesEvents t rs).all isWikiSetEvent = true := by
  simp only [setPagesEvents, List.all_eq_true, List.mem_map]
  rintro e ⟨p, hp, rfl⟩
  rfl

theorem filter_length_pos_of_not_isEmpty {l : List Rec}
    (h : (l.filter isDirty).isEmpty = false) : 0 < (l.filter isDirty).length := by
  cases hfe : l.filter isDirty with
  | nil => rw [hfe] at h; simp at h
  | cons a t => simp [hfe]

/-- C1: for every table object, when at least one record carries the
Modified flag, `update_table_pages` issues exactly one flag-clearing
update per dirty record (in order), then writes the table page rendered
from ALL current records, then writes the pages rendered from ONLY the
dirty records; when no record is dirty it performs no effect at all. -/
theorem update_table_pages_selective (t : TableObj) (records : List Rec) :
    ((records.filter isDirty).isEmpty = false →
      update_table_pages t records
        = (records.filter isDirty,
            (records.filter isDirty).map clearEvent
              ++ [Event.wikiSet t.dw_table_page (t.formatTable records)]
              ++ (t.formatPages (records.filter isDirty)).map
                  (fun p => Event.wikiSet p.1 p.2)))
  ∧ ((records.filter isDirty).isEmpty = true →
      update_table_pages t records = (records, [])) := by
  constructor
  · intro h
    have hlen := filter_length_pos_of_not_isEmpty h
    simp [update_table_pages, scanModified_eq, setPagesEvents, hlen]
  · intro h
    have hfe : records.filter isDirty = [] := by simpa using h
    simp [update_table_pages, scanModified_eq, hfe]

/-- Witness for C1 at a concrete two-record table, one record dirty. -/
def sampleDirtyRec : Rec :=
  ⟨"rec1".data, [("Tool name".data, Val.vStr "T".data),
                 ("Modified".data, Val.vBool true)]⟩

/-- A record without the Modified flag. -/
def sampleCleanRec : Rec :=
  ⟨"rec2".data, [("Tool name".data, Val.vStr "U".data)]⟩

/-- A concrete two-record table content, one record dirty. -/
def sampleRecords : List Rec := [sampleDirtyRec, sampleCleanRec]

/-- A concrete table object with opaque renderers. -/
def sampleTableObj : TableObj :=
  ⟨"tables:test".data, fun _ => "TBL".data,
   fun rs => rs.map (fun r => ("tools:".data ++ r.id, "PAGE".data))⟩

/-- Witness: C1 applied to the concrete sample table. -/
theorem update_table_pages_selective_witness :
    (sampleRecords.filter isDirty).isEmpty = false
  ∧ update_table_pages sampleTableObj sampleRecords
      = (sampleRecords.filter isDirty,
          (sampleRecords.filter isDirty).map clearEvent
            ++ [Event.wikiSet sampleTableObj.dw_table_page
                  (sampleTableObj.formatTable sampleRecords)]
            ++ (sampleTableObj.formatPages (sampleRecords.filter isDirty)).map
                (fun p => Event.wikiSet p.1 p.2)) :=
  ⟨by decide, (update_table_pages_selective sampleTableObj sampleRecords).1 (by decide)⟩

/-- C2: in each of the three update runs, every flag-clearing update
precedes every wiki write: the effect trace is the dirty records' clears
(one each, in record order) followed by wiki writes only.  A failure while
publishing therefore cannot prevent any dirty record's flag from having
been cleared. -/
theorem update_runs_clear_flags_first (t : TableObj) (records : List Rec) :
    clearsThenWrites records (update_table t records).2
  ∧ clearsThenWrites records (update_pages t records).2
  ∧ clearsThenWrites records (update_table_pages t records).2 := by
  refine ⟨?_, ?_, ?_⟩
  · by_cases h : 0 < (records.filter isDirty).length
    · have := clearsThenWrites_of records
        [Event.wikiSet t.dw_table_page (t.formatTable records)] (by simp [isWikiSetEvent])
      simpa [update_table, countModified_eq, h] using this
    · have := clearsThenWrites_of records [] (by simp)
      simpa [update_table, countModified_eq, h] using this
  · by_cases h : 0 < (records.filter isDirty).length
    · have := clearsThenWrites_of records
        (setPagesEvents t (records.filter isDirty))
        (setPagesEvents_all_wikiSet t (records.filter isDirty))
      simpa [update_pages, scanModified_eq, h] using this
    · have := clearsThenWrites_of records [] (by simp)
      simpa [update_pages, scanModified_eq, h] using this
  · by_cases h : 0 < (records.filter isDirty).length
    · have := clearsThenWrites_of records
        ([Event.wikiSet t.dw_table_page (t.formatTable records)]
          ++ setPagesEvents t (records.filter isDirty))
        (by simp [List.all_append, isWikiSetEvent,
          setPagesEvents_all_wikiSet t (records.filter isDirty)])
      simpa [update_table_pages, scanModified_eq, h] using this
    · have := clearsThenWrites_of records [] (by simp)
      simpa [update_table_pages, scanModified_eq, h] using this

/-- C10: after `update_pages` or `update_table_pages` with at least one
dirty record, the table object's record list is overwritten with the dirty
subset, so a subsequent render through the same table object sees only the
previously-dirty records. -/
theorem update_runs_retain_dirty_subset (t : TableObj) (records : List Rec)
    (h : (records.filter isDirty).isEmpty = false) :
    (update_pages t records).1 = records.filter isDirty
  ∧ (update_table_pages t records).1 = records.filter isDirty
  ∧ t.formatTable (update_table_pages t records).1
      = t.formatTable (records.filter isDirty) := by
  have hlen := filter_length_pos_of_not_isEmpty h
  refine ⟨?_, ?_, ?_⟩
  · simp [update_pages, scanModified_eq, hlen]
  · simp [update_table_pages, scanModified_eq, hlen]
  · simp [update_table_pages, scanModified_eq, hlen]

/-- Witness: C10 applied to the concrete sample table. -/
theorem update_runs_retain_dirty_subset_witness :
    (sampleRecords.filter isDirty).isEmpty = false
  ∧ (update_pages sampleTableObj sampleRecords).1 = sampleRecords.filter isDirty :=
  ⟨by decide,
   (update_runs_retain_dirty_subset sampleTableObj sampleRecords (by decide)).1⟩

theorem format_table_aux_skip (mc : PyStr) (row : Rec → Option PyStr) (r : Rec)
    (hr : hasField r mc = false) :
    ∀ (pre : List Rec) (post : List Rec) (acc : PyStr),
      format_table_aux (some mc) row acc (pre ++ r :: post)
        = format_table_aux (some mc) row acc (pre ++ post) := by
  intro pre
  induction pre with
  | nil =>
    intro post acc
    simp [format_table_aux, hr]
  | cons p pre ih =>
    intro post acc
    simp only [List.cons_append, format_table_aux]
    split
    · exact ih post acc
    · cases hrow : row p with
      | none => rfl
      | some rowp => exact ih post (acc ++ rowp)

theorem format_pages_aux_skip (mc : PyStr) (nameCol : Option PyStr) (ns : PyStr)
    (cp : Rec → Option PyStr) (r : Rec) (hr : hasField r mc = false) :
    ∀ (pre : List Rec) (post : List Rec) (acc : List (PyStr × PyStr)),
      format_pages_aux (some mc) nameCol ns cp acc (pre ++ r :: post)
        = format_pages_aux (some mc) nameCol ns cp acc (pre ++ post) := by
  intro pre
  induction pre with
  | nil =>
    intro post acc
    simp [format_pages_aux, hasFieldOpt, hr]
  | cons p pre ih =>
    intro post acc
    simp only [List.cons_append, format_pages_aux]
    split
    · exact ih post acc
    · cases nameCol with
      | none => rfl
      | some ncol =>
        cases hv : dictGet? p.fields ncol with
        | none => simp [hv]
        | some v =>
          cases hs : asStr v with
          | none => simp [hv, hs]
          | some pn =>
            cases hc : cp p with
            | none => simp [hv, hs, hc]
            | some page =>
              simp only [hv, hs, hc]
              exact ih post _

/-- C3: a record lacking the table's main column contributes zero rows to
the rendered table and zero pages to the rendered page set, wherever it
sits in the record list, for every row constructor, page constructor and
page-name column. -/
theorem missing_main_column_excluded (mc : PyStr) (hdr : PyStr)
    (row : Rec → Option PyStr) (nameCol : Option PyStr) (ns : PyStr)
    (cp : Rec → Option PyStr) (pre post : List Rec) (r : Rec)
    (hr : hasField r mc = false) :
    format_table (some mc) hdr row (pre ++ r :: post)
      = format_table (some mc) hdr row (pre ++ post)
  ∧ format_pages (some mc) nameCol ns cp (pre ++ r :: post)
      = format_pages (some mc) nameCol ns cp (pre ++ post) := by
  constructor
  · exact format_table_aux_skip mc row r hr pre post hdr
  · simp only [format_pages]
    rw [if_neg (by simp), if_neg (by simp)]
    exact format_pages_aux_skip mc nameCol ns cp r hr pre post []

/-- Witness: C3 applied to a concrete record lacking the main column
parencite. -/
theorem missing_main_column_excluded_witness :
    hasField sampleCleanRec "parencite".data = false
  ∧ format_table (some "parencite".data) toolHeader (fun _ => some [])
      ([] ++ sampleCleanRec :: [])
      = format_table (some "parencite".data) toolHeader (fun _ => some []) ([] ++ []) :=
  ⟨by decide,
   (missing_main_column_excluded "parencite".data toolHeader (fun _ => some [])
      (some "Title".data) "papers:".data (fun _ => some []) [] [] sampleCleanRec
      (by decide)).1⟩

theorem format_table_aux_filter (c : PyStr) (row : Rec → Option PyStr) :
    ∀ (records : List Rec) (acc : PyStr),
      format_table_aux (some c) row acc records
        = format_table_aux none row acc (records.filter (fun r => hasField r c)) := by
  intro records
  induction records with
  | nil => intro acc; rfl
  | cons r rest ih =>
    intro acc
    by_cases h : hasField r c
    · simp only [List.filter_cons, h, if_true, format_table_aux]
      rw [if_neg (by simp [h]), if_neg (by simp)]
      cases hrow : row r with
      | none => rfl
      | some rowp => exact ih (acc ++ rowp)
    · have hf : hasField r c = false := by simpa using h
      simp only [List.filter_cons, hf, format_table_aux]
      rw [if_pos (by simp [hf])]
      simp only [Bool.false_eq_true, if_false]
      exact ih acc

theorem toolConstructRow_no_wiki (g : Airtable) (r : Rec)
    (h : hasField r "Wiki?".data = false) : toolConstructRow g r = some [] := by
  simp [toolConstructRow, h]

theorem toolConstructRow_shape (g : Airtable) (r : Rec) (s : PyStr)
    (hw : hasField r "Wiki?".data = true) (hrow : toolConstructRow g r = some s) :
    ∃ mid, s = "| ".data ++ mid ++ " |\n".data := by
  rw [toolConstructRow, if_pos hw] at hrow
  simp only [Option.bind_eq_bind, Option.bind_eq_some, Option.pure_def,
    Option.some.injEq] at hrow
  obtain ⟨tool_name, h1, descr0, h2, find0, h3, cat_column, h4, key_papers, h5, hs⟩ := hrow
  refine ⟨"[[tools:".data ++ pyTranslate tool_name ++ "|".data ++ tool_name ++ "]]".data
      ++ " | ".data ++ pyJoin ", ".data cat_column ++ " | ".data
      ++ pyRstrip (pyReplaceChar '\r' [] (pyReplaceChar '\n' [' '] descr0)) ++ " |".data
      ++ pyRstrip (pyReplaceChar '\r' [] (pyReplaceChar '\n' [' '] find0)) ++ " | ".data
      ++ pyJoin "; ".data key_papers, ?_⟩
  rw [← hs]
  simp [List.append_assoc]

/-- An Airtable connection with no meaningful records. -/
def emptyAirtable : Airtable := fun _ => ⟨[], []⟩

/-- A record carrying the Tools main column but not the Wiki? field. -/
def noWikiRec : Rec := ⟨"rec3".data, [("Tool name".data, Val.vStr "T".data)]⟩

/-- Counterexample to C4 as stated: `noWikiRec` carries the main column
Tool name, yet the rendered Tools table for `[noWikiRec]` is identical to
the rendered table for no records at all — the record contributes zero
rows, because `ToolTable.construct_row` returns the empty string for
records without the Wiki? field. -/
theorem tool_table_row_count_counterexample :
    hasField noWikiRec toolMainColumn = true
  ∧ format_table (some toolMainColumn) toolHeader (toolConstructRow emptyAirtable)
      [noWikiRec]
      = format_table (some toolMainColumn) toolHeader (toolConstructRow emptyAirtable)
          [] := by
  constructor
  · decide
  · decide

/-- C4 (amended): the rendered table processes, in input order, exactly the
records whose fields contain the main column (no duplication, no
re-ordering); under the Tools row constructor a processed record
contributes exactly one data row (a single `| ... |` line) when its fields
also contain Wiki?, and the empty string (zero rows) otherwise. -/
theorem tool_table_one_row_per_wiki_record :
    (∀ (c hdr : PyStr) (row : Rec → Option PyStr) (records : List Rec),
        format_table (some c) hdr row records
          = format_table none hdr row (records.filter (fun r => hasField r c)))
  ∧ (∀ (g : Airtable) (r : Rec), hasField r "Wiki?".data = false →
        toolConstructRow g r = some [])
  ∧ (∀ (g : Airtable) (r : Rec) (s : PyStr), hasField r "Wiki?".data = true →
        toolConstructRow g r = some s →
        ∃ mid, s = "| ".data ++ mid ++ " |\n".data) :=
  ⟨fun c hdr row records => format_table_aux_filter c row records hdr,
   toolConstructRow_no_wiki, toolConstructRow_shape⟩

/-- A record with both the main column and the Wiki? field. -/
def wikiRec : Rec :=
  ⟨"rec4".data, [("Wiki?".data, Val.vBool true), ("Tool name".data, Val.vStr "T".data)]⟩

/-- An Airtable connection resolving every id to one category record. -/
def catAirtable : Airtable :=
  fun _ => ⟨"cat1".data, [("(Sub)Category or theme".data, Val.vStr "C".data),
                          ("Description".data, Val.vStr "D".data)]⟩

/-- Witness: C4 (amended) applied at concrete inputs. -/
theorem tool_table_one_row_per_wiki_record_witness :
    format_table (some "k".data) "h".data (fun _ => some "R".data) [noWikiRec]
      = format_table none "h".data (fun _ => some "R".data)
          ([noWikiRec].filter (fun r => hasField r "k".data))
  ∧ hasField noWikiRec "Wiki?".data = false
  ∧ toolConstructRow emptyAirtable noWikiRec = some []
  ∧ hasField wikiRec "Wiki?".data = true
  ∧ (∃ mid,
      ("| [[tools:T|T]] | <popover content=\"D\" trigger=\x27hover\x27>C</popover> |  | |  |\n").data
        = "| ".data ++ mid ++ " |\n".data) :=
  ⟨tool_table_one_row_per_wiki_record.1 "k".data "h".data (fun _ => some "R".data) [noWikiRec],
   by decide,
   tool_table_one_row_per_wiki_record.2.1 emptyAirtable noWikiRec (by decide),
   by decide,
   tool_table_one_row_per_wiki_record.2.2 catAirtable wikiRec _ (by decide) (by rfl)⟩

/-- C5 (evidence): the parenthetical-citation derivation yields the three
documented nonempty-author cases exactly, but on an empty author list the
code raises IndexError (computing the first author's last name before the
zero-author branch), instead of returning the empty string. -/
theorem parencite_cases :
    makeParencite [⟨["Smith".data]⟩] "2020".data = some "(Smith, \x2720)".data
  ∧ makeParencite [⟨["Smith".data]⟩, ⟨["Jones".data]⟩] "2019".data
      = some "(Smith & J, \x2719)".data
  ∧ makeParencite [⟨["Smith".data]⟩, ⟨["Jones".data]⟩, ⟨["Lee".data]⟩] "2018".data
      = some "(Smith ea, \x2718)".data
  ∧ makeParencite [] "2020".data = none := by
  refine ⟨by decide, by decide, by decide, by decide⟩

theorem hasField_keys_only (id1 id2 : PyStr) (fields : List (PyStr × Val)) (v : PyStr) :
    hasField ⟨id2, fields.map (fun kv => (kv.1, Val.vStr []))⟩ v
      = hasField ⟨id1, fields⟩ v := by
  unfold hasField
  induction fields with
  | nil => rfl
  | cons kv rest ih =>
    simp only [List.map_cons, List.any_cons]
    rw [ih]

/-- C8: the checkbox formatter returns the checked glyph exactly when the
named field is present and the empty string otherwise, and its result is
unchanged when every stored field value is replaced by a dummy — the
values never influence it. -/
theorem insert_check_spec :
    (∀ (v : PyStr) (r : Rec),
        insert_check v r = if hasField r v then ['✓'] else [])
  ∧ (∀ (v : PyStr) (r : Rec),
        insert_check v r
          = insert_check v ⟨r.id, r.fields.map (fun kv => (kv.1, Val.vStr []))⟩) := by
  constructor
  · intro v r
    by_cases h : hasField r v <;> simp [insert_check, h]
  · intro v r
    unfold insert_check
    rw [hasField_keys_only r.id r.id r.fields v]

theorem dictGet?_some_any :
    ∀ (fields : List (PyStr × Val)) (k : PyStr) (v : Val),
      dictGet? fields k = some v →
      fields.any (fun kv => decide (kv.1 = k)) = true := by
  intro fields
  induction fields with
  | nil => intro k v h; cases h
  | cons kv rest ih =>
    intro k v h
    simp only [dictGet?] at h
    split at h
    · rename_i heq; simp [heq]
    · simp only [List.any_cons, Bool.or_eq_true]
      exact Or.inr (ih k v h)

theorem mapM_resolve (g : Airtable) (lcol : PyStr) (disp : PyStr → PyStr) :
    ∀ idStrs : List PyStr,
      (∀ i ∈ idStrs, dictGet? (g i).fields lcol = some (Val.vStr (disp i))) →
      (idStrs.map Val.vStr).mapM (resolveItem g lcol) = some (idStrs.map disp) := by
  intro idStrs
  induction idStrs with
  | nil => intro _; rfl
  | cons i rest ih =>
    intro h
    have hi := h i (by simp)
    have hrest := ih (fun j hj => h j (by simp [hj]))
    have hstep : resolveItem g lcol (Val.vStr i) = some (disp i) := by
      simp [resolveItem, asStr, hi]
    simp only [List.map_cons, List.mapM_cons]
    rw [hstep]
    simp only [Option.bind_eq_bind, Option.some_bind]
    rw [hrest]
    simp only [Option.bind_eq_bind, Option.some_bind]
    rfl

/-- C9: cross-reference resolution returns the empty string when the
foreign-identifier column is absent, and otherwise — given that every
identifier resolves to a record carrying the display column — the
referenced display values joined with a comma-space separator, in the
order the identifiers appear. -/
theorem get_linked_items_spec :
    (∀ (g : Airtable) (col lcol : PyStr) (r : Rec), hasField r col = false →
        get_linked_items g col r lcol = some [])
  ∧ (∀ (g : Airtable) (col lcol : PyStr) (r : Rec) (idStrs : List PyStr)
        (disp : PyStr → PyStr),
        dictGet? r.fields col = some (Val.vList (idStrs.map Val.vStr)) →
        (∀ i ∈ idStrs, dictGet? (g i).fields lcol = some (Val.vStr (disp i))) →
        get_linked_items g col r lcol
          = some (pyJoin ", ".data (idStrs.map disp))) := by
  constructor
  · intro g col lcol r h
    simp [get_linked_items, h]
  · intro g col lcol r idStrs disp hcol hdisp
    have hf : hasField r col = true := dictGet?_some_any r.fields col _ hcol
    rw [get_linked_items, if_pos hf, hcol]
    simp only [valIter]
    rw [mapM_resolve g lcol disp idStrs hdisp]

/-- An Airtable connection resolving each id to a record whose Theory
column holds N followed by the id. -/
def linkedAirtable : Airtable :=
  fun i => ⟨i, [("Theory".data, Val.vStr ("N".data ++ i))]⟩

/-- A record with two linked theory ids. -/
def linkedRec : Rec :=
  ⟨"r9".data, [("Theories".data, Val.vList [Val.vStr "p1".data, Val.vStr "p2".data])]⟩

/-- A record without the linked column. -/
def noLinkRec : Rec := ⟨"r9b".data, [("Name".data, Val.vStr "X".data)]⟩

/-- Witness: C9 applied at a concrete two-identifier record and at a record
lacking the column. -/
theorem get_linked_items_spec_witness :
    get_linked_items linkedAirtable "Theories".data linkedRec "Theory".data
      = some (pyJoin ", ".data ((["p1".data, "p2".data]).map (fun i => "N".data ++ i)))
  ∧ hasField noLinkRec "Theories".data = false
  ∧ get_linked_items linkedAirtable "Theories".data noLinkRec "Theory".data = some [] :=
  ⟨get_linked_items_spec.2 linkedAirtable "Theories".data "Theory".data linkedRec
      ["p1".data, "p2".data] (fun i => "N".data ++ i) (by rfl)
      (by
        intro i hi
        simp only [List.mem_cons, List.not_mem_nil, or_false] at hi
        rcases hi with rfl | rfl <;> rfl),
   by decide,
   get_linked_items_spec.1 linkedAirtable "Theories".data "Theory".data noLinkRec
     (by decide)⟩

/-- The page produced by the `ToolTable.create_page` substitution when the
rendered Description value is the literal text CATEGORY and every other
value is empty: the substituted description has been overwritten by the
later CATEGORY pass (leaving an empty `//...//` slot) while the template
CATEGORY placeholder survives. -/
def corruptToolPage : String :=
  "===== T =====\n\n////\n\\\\\n\\\\\n**Alternative tool name:** \n\n**Tool variation**: \n\n**Category**: CATEGORY \n\n**Sub-category**: \n\n**Relevant theories**: \n\n**Type of evidence**: \n\n**Evidence strength** (ad hoc assessment): \n\\\\\n\\\\\n==== Main findings ====\n\n\n\\\\\n\\\\\n==== Discussion ====\n\n\n\\\\\n\\\\\n==== Practical relevance ====\n\n\n\\\\\n\\\\\n=== Use cases ===\n\n\n\\\\\n\\\\\n**Prevalence:**\n\n\n\\\\\n\\\\\n==== Key papers ====\n\n==== Secondary papers ====\n\n**Contributors** "

set_option maxRecDepth 16384 in
/-- Counterexample to C6 as stated: when the Description field renders to
the literal text CATEGORY (an already-substituted value containing the
not-yet-substituted CATEGORY placeholder token), the later CATEGORY pass
corrupts it — the substituted description no longer appears in the result
(`//CATEGORY//` is gone) and the template CATEGORY placeholder is still
present, unsubstituted. -/
theorem tool_page_subst_corruption :
    toolCreatePageSubst "T".data "CATEGORY".data [] [] [] [] [] [] [] [] [] [] [] [] [] [] []
      = corruptToolPage.data
  ∧ firstOccur "//CATEGORY//".data corruptToolPage.data = none
  ∧ firstOccur "**Category**: CATEGORY".data corruptToolPage.data ≠ none := by
  refine ⟨by decide, by decide, by decide⟩

/-- C6 (amended): the `create_page` substitution applies the (placeholder,
value) pairs in one fixed left-to-right pass, each pass replacing exactly
the first occurrence of its placeholder token (the replaced occurrence is
the minimal one and only it changes, the rest of the string is kept); a
pass whose placeholder is absent changes nothing.  This first-occurrence
rule does not by itself protect an earlier-substituted value that contains
a later placeholder token (see the counterexample). -/
theorem subst_first_occurrence_only :
    (∀ (old new s : PyStr) (i : Nat), firstOccur old s = some i →
        old.isPrefixOf (s.drop i) = true
      ∧ (∀ j, j < i → old.isPrefixOf (s.drop j) = false)
      ∧ pyReplaceFirst old new s = s.take i ++ new ++ s.drop (i + old.length))
  ∧ (∀ (old new s : PyStr), firstOccur old s = none → pyReplaceFirst old new s = s)
  ∧ (∀ (t p v : PyStr) (rest : List (PyStr × PyStr)),
        applyReplacements ((p, v) :: rest) t
          = applyReplacements rest (pyReplaceFirst p v t)) :=
  ⟨fun old new s i h =>
    ⟨firstOccur_isPrefix old s i h, firstOccur_minimal old s i h,
     pyReplaceFirst_eq_splice old new s i h⟩,
   fun old new s h => pyReplaceFirst_of_none old new s h,
   fun _ _ _ _ => rfl⟩

/-- Witness: C6 (amended) applied at concrete strings. -/
theorem subst_first_occurrence_only_witness :
    firstOccur "b".data "abcb".data = some 1
  ∧ pyReplaceFirst "b".data "X".data "abcb".data
      = "abcb".data.take 1 ++ "X".data ++ "abcb".data.drop (1 + "b".data.length)
  ∧ pyReplaceFirst "z".data "X".data "abcb".data = "abcb".data :=
  ⟨by decide,
   (subst_first_occurrence_only.1 "b".data "X".data "abcb".data 1 (by decide)).2.2,
   subst_first_occurrence_only.2.1 "z".data "X".data "abcb".data (by decide)⟩

/-- Counterexample to C7 as stated: an existing page of the shape
before-starttag-endtag (with before itself equal to the end marker, as a
hand-authored page may contain a closing div before the table region) is
corrupted: because the end-marker search starts from the beginning of the
page, the code keeps everything from the FIRST end marker on, duplicating
the region, instead of producing before-starttag-NEW-endtag. -/
theorem rw_region_embedding_counterexample :
    rwFormatTable "d".data (some "X".data) "NEW".data (fun _ => some [])
        [] ("</div>".data ++ rwStartTag "d".data ++ rwEndTag)
      = some ("</div>".data ++ rwStartTag "d".data ++ "NEW".data ++ "</div>".data
          ++ rwStartTag "d".data ++ rwEndTag)
  ∧ ("</div>".data ++ rwStartTag "d".data ++ "NEW".data ++ "</div>".data
          ++ rwStartTag "d".data ++ rwEndTag)
      ≠ ("</div>".data ++ rwStartTag "d".data ++ "NEW".data ++ rwEndTag) := by
  refine ⟨by decide, by decide⟩

/-- C7 (amended): region-scoped table embedding is frame-preserving
provided the markers delimit the region unambiguously: when the start
marker first occurs in the page exactly where the region opens and the end
marker first occurs exactly where the region closes, the result replaces
only the text between the markers with the new table content and keeps
every byte outside them (before the start marker and after the end marker)
unchanged. -/
theorem pyFind_eq (s pat : PyStr) (n : Nat) (h : firstOccur pat s = some n) :
    pyFind s pat = (n : Int) := by
  unfold pyFind
  rw [h]

theorem rw_region_splice (div_id hdr : PyStr) (main : Option PyStr)
    (row : Rec → Option PyStr) (records : List Rec)
    (before mid after tc : PyStr)
    (h1 : firstOccur (rwStartTag div_id)
        (before ++ rwStartTag div_id ++ mid ++ rwEndTag ++ after)
        = some before.length)
    (h2 : firstOccur rwEndTag
        (before ++ rwStartTag div_id ++ mid ++ rwEndTag ++ after)
        = some (before.length + (rwStartTag div_id).length + mid.length))
    (h3 : rwRowsAux main row hdr records = some tc) :
    rwFormatTable div_id main hdr row records
        (before ++ rwStartTag div_id ++ mid ++ rwEndTag ++ after)
      = some (before ++ rwStartTag div_id ++ tc ++ rwEndTag ++ after) := by
  have e1 : pySliceTo (before ++ rwStartTag div_id ++ mid ++ rwEndTag ++ after)
      (pyFind (before ++ rwStartTag div_id ++ mid ++ rwEndTag ++ after)
          (rwStartTag div_id) + ((rwStartTag div_id).length : Int))
      = before ++ rwStartTag div_id := by
    rw [pyFind_eq _ _ _ h1]
    unfold pySliceTo
    rw [if_pos (by omega)]
    have ht : ((before.length : Int) + ((rwStartTag div_id).length : Int)).toNat
        = before.length + (rwStartTag div_id).length := by omega
    rw [ht, List.append_assoc ((before ++ rwStartTag div_id) ++ mid) rwEndTag after,
      List.append_assoc (before ++ rwStartTag div_id) mid (rwEndTag ++ after),
      ← List.length_append before (rwStartTag div_id), List.take_left]
  have e2 : pySliceFrom (before ++ rwStartTag div_id ++ mid ++ rwEndTag ++ after)
      (pyFind (before ++ rwStartTag div_id ++ mid ++ rwEndTag ++ after) rwEndTag)
      = rwEndTag ++ after := by
    rw [pyFind_eq _ _ _ h2]
    unfold pySliceFrom
    rw [if_pos (by omega)]
    have ht : ((before.length + (rwStartTag div_id).length + mid.length : Nat) : Int).toNat
        = before.length + (rwStartTag div_id).length + mid.length := by omega
    have hlen : ((before ++ rwStartTag div_id) ++ mid).length
        = before.length + (rwStartTag div_id).length + mid.length := by
      rw [List.length_append, List.length_append]
    rw [ht, List.append_assoc ((before ++ rwStartTag div_id) ++ mid) rwEndTag after,
      ← hlen, List.drop_left]
  simp only [rwFormatTable, h3, e1, e2]
  simp [List.append_assoc]

/-- Witness: C7 (amended) applied at a concrete well-delimited page. -/
theorem rw_region_splice_witness :
    firstOccur (rwStartTag "d".data)
        ("b".data ++ rwStartTag "d".data ++ "O".data ++ rwEndTag ++ "a".data)
      = some ("b".data).length
  ∧ firstOccur rwEndTag
        ("b".data ++ rwStartTag "d".data ++ "O".data ++ rwEndTag ++ "a".data)
      = some (("b".data).length + (rwStartTag "d".data).length + ("O".data).length)
  ∧ rwFormatTable "d".data (some "X".data) "NEW".data (fun _ => some []) []
        ("b".data ++ rwStartTag "d".data ++ "O".data ++ rwEndTag ++ "a".data)
      = some ("b".data ++ rwStartTag "d".data ++ "NEW".data ++ rwEndTag ++ "a".data) :=
  ⟨by decide, by decide,
   rw_region_splice "d".data "NEW".data (some "X".data) (fun _ => some []) []
     "b".data "O".data "a".data "NEW".data (by decide) (by decide) (by rfl)⟩
